import Mathlib

/-!
Verification of `test-cloudflare.py`: a shallow embedding of the script's
two probe functions (`test_credentials` and `test_zone_info`) and its entry
point, together with theorems about their observable behaviour (printed
lines, issued HTTP requests, exit status).

The network is modelled as a function from the issued request to its
outcome (a response, or a transport-level exception), so the probes become
pure functions from that network behaviour to the list of printed lines and
the list of requests attempted.  Python exceptions raised inside the `try`
blocks are modelled with `Except String` / an optional exception component,
which the enclosing `except Exception` handler turns into a printed line.
-/

set_option autoImplicit false

namespace Cloudflare

/-- JSON values, as produced by `response.json()`. -/
inductive Json where
  | null
  | bool (b : Bool)
  | num (n : Int)
  | str (s : String)
  | arr (xs : List Json)
  | obj (kvs : List (String × Json))
deriving Repr

-- Python `str()` of a value, as used by f-string interpolation.
-- `pyReprList` / `pyReprKVs` render the elements of lists and dicts with
-- `repr`, as Python does inside containers.
mutual

def pyStr : Json → String
  | .null => "None"
  | .bool b => if b then "True" else "False"
  | .num n => toString n
  | .str s => s
  | .arr xs => "[" ++ pyReprList xs ++ "]"
  | .obj kvs => "\x7b" ++ pyReprKVs kvs ++ "\x7d"

def pyRepr : Json → String
  | .null => "None"
  | .bool b => if b then "True" else "False"
  | .num n => toString n
  | .str s => "\x27" ++ s ++ "\x27"
  | .arr xs => "[" ++ pyReprList xs ++ "]"
  | .obj kvs => "\x7b" ++ pyReprKVs kvs ++ "\x7d"

def pyReprList : List Json → String
  | [] => ""
  | [x] => pyRepr x
  | x :: xs => pyRepr x ++ ", " ++ pyReprList xs

def pyReprKVs : List (String × Json) → String
  | [] => ""
  | [(k, v)] => "\x27" ++ k ++ "\x27: " ++ pyRepr v
  | (k, v) :: kvs => "\x27" ++ k ++ "\x27: " ++ pyRepr v ++ ", " ++ pyReprKVs kvs

end

/-- Python subscription `j[k]` with a string key: succeeds on a dict that
has the key, raises `KeyError` (whose `str` is the quoted key) when the key
is absent, and `TypeError` on non-dict values. -/
def getItem (j : Json) (k : String) : Except String Json :=
  match j with
  | .obj kvs =>
    match List.lookup k kvs with
    | some v => .ok v
    | none => .error ("\x27" ++ k ++ "\x27")
  | .str _ => .error "string indices must be integers"
  | .arr _ => .error "list indices must be integers or slices, not str"
  | _ => .error "object is not subscriptable"

/-- Python membership test `k in j` for a string `k`: key test on dicts,
element test on lists, substring test on strings, `TypeError` otherwise. -/
def pyContains (j : Json) (k : String) : Except String Bool :=
  match j with
  | .obj kvs => .ok (List.lookup k kvs).isSome
  | .arr xs => .ok (xs.any fun x => match x with | .str s => s == k | _ => false)
  | .str s => .ok (k == "" || (s.splitOn k).length > 1)
  | _ => .error "argument of type is not iterable"

/-- Python `len(j)`: defined on lists, strings and dicts, `TypeError`
otherwise. -/
def pyLen (j : Json) : Except String Nat :=
  match j with
  | .arr xs => .ok xs.length
  | .str s => .ok s.length
  | .obj kvs => .ok kvs.length
  | _ => .error "object has no len()"

/-- Python `j[:n]` followed by iteration: the first `n` elements of a list,
the first `n` characters of a string, `TypeError` otherwise. -/
def pySliceIter (j : Json) (n : Nat) : Except String (List Json) :=
  match j with
  | .arr xs => .ok (xs.take n)
  | .str s => .ok (((s.take n).toList).map fun c => .str (String.singleton c))
  | _ => .error "unhashable type: slice"

/-- An HTTP response as seen by the script: `status_code`, `text` (the raw
body), and the result of `response.json()` (which may raise a decode
error). -/
structure Response where
  status : Nat
  text : String
  json : Except String Json
deriving Repr

/-- Outcome of `requests.get`: a response, or a transport-level exception
(connection error, timeout) whose `str` is carried. -/
inductive GetResult where
  | resp (r : Response)
  | exn (e : String)
deriving Repr

/-- An HTTP request as the script builds it: method, full URL, headers and
client timeout in seconds. -/
structure Request where
  method : String
  url : String
  headers : List (String × String)
  timeout : Nat
deriving Repr, DecidableEq

/-- The network: maps each issued request to its outcome. -/
def Net : Type := Request → GetResult

-- Compiled-in constants (test-cloudflare.py lines 6-7).
def API_TOKEN : String := "XspvHdYi9Y3YSI96_5sF3pYYb4O0nW1-69Z9K2vB"
def ZONE_ID : String := "f3830ecd755d9a9fce0706a76853bef3"

/-- Headers built in both probes (lines 12-15 and 42-45). -/
def api_headers : List (String × String) :=
  [("Authorization", "Bearer " ++ API_TOKEN),
   ("Content-Type", "application/json")]

/-- The request issued by `test_credentials` (lines 18, 21). -/
def cred_request : Request :=
  { method := "GET"
    url := "https://api.cloudflare.com/client/v4/zones/" ++ ZONE_ID ++ "/dns_records"
    headers := api_headers
    timeout := 10 }

/-- The request issued by `test_zone_info` (lines 47, 50). -/
def zone_request : Request :=
  { method := "GET"
    url := "https://api.cloudflare.com/client/v4/zones/" ++ ZONE_ID
    headers := api_headers
    timeout := 10 }

/-- Line 31: the f-string printed for one DNS record; raises `KeyError`
when `type`, `name` or `content` is absent. -/
def formatRecord (record : Json) : Except String String :=
  match getItem record "type" with
  | .error e => .error e
  | .ok t =>
    match getItem record "name" with
    | .error e => .error e
    | .ok n =>
      match getItem record "content" with
      | .error e => .error e
      | .ok c => .ok ("  - " ++ pyStr t ++ ": " ++ pyStr n ++ " -> " ++ pyStr c)

/-- The record-printing loop of lines 30-31: prints one line per record
until a record raises, in which case the lines printed so far are kept and
the exception is propagated. -/
def printRecords : List Json → List String × Option String
  | [] => ([], none)
  | r :: rs =>
    match formatRecord r with
    | .error e => ([], some e)
    | .ok line =>
      let (ls, ex) := printRecords rs
      (line :: ls, ex)

/-- Formatting a whole record list when no record raises (specification
helper for stating hypotheses about well-formed records). -/
def formatAll : List Json → Except String (List String)
  | [] => .ok []
  | r :: rs =>
    match formatRecord r with
    | .error e => .error e
    | .ok line =>
      match formatAll rs with
      | .error e => .error e
      | .ok ls => .ok (line :: ls)

/-- The `try` block of `test_credentials` (lines 20-34): the lines it
prints and the exception, if any, that escapes to the handler. -/
def test_credentials_body (net : Net) : List String × Option String :=
  match net cred_request with
  | .exn e => ([], some e)
  | .resp r =>
    let statusLine := "Response status: " ++ toString r.status
    if r.status == 200 then
      let okLine := "✅ Credentials are valid!"
      match r.json with
      | .error e => ([statusLine, okLine], some e)
      | .ok data =>
        match pyContains data "result" with
        | .error e => ([statusLine, okLine], some e)
        | .ok false => ([statusLine, okLine], none)
        | .ok true =>
          match getItem data "result" with
          | .error e => ([statusLine, okLine], some e)
          | .ok res =>
            match pyLen res with
            | .error e => ([statusLine, okLine], some e)
            | .ok n =>
              let countLine := "\nFound " ++ toString n ++ " DNS records:"
              match pySliceIter res 5 with
              | .error e => ([statusLine, okLine, countLine], some e)
              | .ok recs =>
                let (ls, ex) := printRecords recs
                ([statusLine, okLine, countLine] ++ ls, ex)
    else
      ([statusLine, "❌ Invalid credentials or permissions", "Error: " ++ r.text], none)

/-- `test_credentials` (lines 9-37): all lines printed, and the requests
issued.  The broad `except Exception` handler (lines 36-37) turns any
exception from the body into a printed network-error line. -/
def test_credentials (net : Net) : List String × List Request :=
  let (ls, ex) := test_credentials_body net
  ("Testing Cloudflare API credentials..." :: ls ++
     (match ex with
      | some e => ["❌ Network error: " ++ e]
      | none => []),
   [cred_request])

/-- The `try` block of `test_zone_info` (lines 49-58). -/
def test_zone_info_body (net : Net) : List String × Option String :=
  match net zone_request with
  | .exn e => ([], some e)
  | .resp r =>
    if r.status == 200 then
      match r.json with
      | .error e => ([], some e)
      | .ok data =>
        match getItem data "result" with
        | .error e => ([], some e)
        | .ok res =>
          match getItem res "name" with
          | .error e => ([], some e)
          | .ok zoneName =>
            (["✅ Zone name: " ++ pyStr zoneName,
              "✅ Zone ID verified: " ++ ZONE_ID], none)
    else
      (["❌ Failed to get zone info: " ++ r.text], none)

/-- `test_zone_info` (lines 39-61): all lines printed and the requests
issued; the handler at lines 60-61 prints any exception. -/
def test_zone_info (net : Net) : List String × List Request :=
  let (ls, ex) := test_zone_info_body net
  ("\nGetting zone information..." :: ls ++
     (match ex with
      | some e => ["❌ Error getting zone info: " ++ e]
      | none => []),
   [zone_request])

/-- The entry point (lines 63-65): runs both probes in order.  Returns the
concatenated printed output, the requests issued, and the process exit
status.  No statement outside the two handlers can raise, so the script
always falls off the end of `__main__` and exits with the default success
code 0. -/
def main_run (net : Net) : List String × List Request × Nat :=
  ((test_credentials net).1 ++ (test_zone_info net).1,
   (test_credentials net).2 ++ (test_zone_info net).2,
   0)

/-- A concrete network behaviour: the credential probe's endpoint answers
200 with a `result` list whose single record lacks the `type` key, and the
zone endpoint answers 200 with a well-formed body.  Used to exercise the
missing-key paths. -/
def badRecordNet : Net := fun r =>
  if r.url = cred_request.url then
    .resp ⟨200, "", .ok (.obj [("result", .arr [.obj [("name", .str "x")]])])⟩
  else
    .resp ⟨200, "", .ok (.obj [("result", .obj [("name", .str "example.com")])])⟩

/-- A concrete network behaviour where both endpoints answer 200 with a
body missing expected keys: the credential record lacks `type` and the
zone body's `result` lacks `name`. -/
def bothBadNet : Net := fun r =>
  if r.url = cred_request.url then
    .resp ⟨200, "", .ok (.obj [("result", .arr [.obj [("name", .str "x")]])])⟩
  else
    .resp ⟨200, "", .ok (.obj [("result", .obj [("id", .str "f383")])])⟩

/-! ### Helper lemmas about the record-printing loop -/

theorem formatAll_printRecords {rs : List Json} {ls : List String}
    (h : formatAll rs = .ok ls) : printRecords rs = (ls, none) := by
  induction rs generalizing ls with
  | nil =>
    simp only [formatAll] at h
    cases h
    rfl
  | cons r rs ih =>
    simp only [formatAll] at h
    cases hr : formatRecord r with
    | error e => rw [hr] at h; cases h
    | ok line =>
      rw [hr] at h
      cases hrs : formatAll rs with
      | error e => rw [hrs] at h; cases h
      | ok ls2 =>
        rw [hrs] at h
        cases h
        simp only [printRecords, hr, ih hrs]

theorem formatAll_length {rs : List Json} {ls : List String}
    (h : formatAll rs = .ok ls) : ls.length = rs.length := by
  induction rs generalizing ls with
  | nil => simp only [formatAll] at h; cases h; rfl
  | cons r rs ih =>
    simp only [formatAll] at h
    cases hr : formatRecord r with
    | error e => rw [hr] at h; cases h
    | ok line =>
      rw [hr] at h
      cases hrs : formatAll rs with
      | error e => rw [hrs] at h; cases h
      | ok ls2 =>
        rw [hrs] at h
        cases h
        simp [ih hrs]

theorem formatAll_take {rs : List Json} {ls : List String}
    (h : formatAll rs = .ok ls) (n : Nat) :
    formatAll (rs.take n) = .ok (ls.take n) := by
  induction rs generalizing ls n with
  | nil => simp only [formatAll] at h; cases h; simp [formatAll]
  | cons r rs ih =>
    simp only [formatAll] at h
    cases hr : formatRecord r with
    | error e => rw [hr] at h; cases h
    | ok line =>
      rw [hr] at h
      cases hrs : formatAll rs with
      | error e => rw [hrs] at h; cases h
      | ok ls2 =>
        rw [hrs] at h
        cases h
        cases n with
        | zero => simp [formatAll]
        | succ m => simp only [List.take_succ_cons, formatAll, hr, ih hrs m]

theorem printRecords_stops_at_error {xs : List Json} {ls : List String}
    {b : Json} {ys : List Json} {e : String}
    (hx : formatAll xs = .ok ls) (hb : formatRecord b = .error e) :
    printRecords (xs ++ b :: ys) = (ls, some e) := by
  induction xs generalizing ls with
  | nil =>
    simp only [formatAll] at hx
    cases hx
    simp [printRecords, hb]
  | cons r rs ih =>
    simp only [formatAll] at hx
    cases hr : formatRecord r with
    | error e2 => rw [hr] at hx; cases hx
    | ok line =>
      rw [hr] at hx
      cases hrs : formatAll rs with
      | error e2 => rw [hrs] at hx; cases hx
      | ok ls2 =>
        rw [hrs] at hx
        cases hx
        simp only [List.cons_append, printRecords, hr, List.append_eq, ih hrs]

/-! ### Claim theorems -/

/-- C1: for every HTTP 200 response whose JSON body has a `result` list of
N records (each carrying `type`, `name` and `content`, so that formatting
does not raise), `test_credentials` prints the list's length and then
exactly `min N 5` record lines, one per record in original order, each the
formatted `type`/`name`/`content` of that record. -/
theorem C1_cred_lists_first_five (records : List Json) (lines : List String)
    (kvs : List (String × Json)) (text : String)
    (hres : List.lookup "result" kvs = some (Json.arr records))
    (hfmt : formatAll records = Except.ok lines) :
    test_credentials (fun _ => .resp ⟨200, text, .ok (.obj kvs)⟩) =
      (["Testing Cloudflare API credentials...",
        "Response status: 200",
        "✅ Credentials are valid!",
        "\nFound " ++ toString records.length ++ " DNS records:"]
        ++ lines.take 5,
       [cred_request])
    ∧ (lines.take 5).length = min records.length 5 := by
  have hprint : printRecords (records.take 5) = (lines.take 5, none) :=
    formatAll_printRecords (formatAll_take hfmt 5)
  constructor
  · simp [test_credentials, test_credentials_body, pyContains, getItem, pyLen,
      pySliceIter, hres, hprint]
    rfl
  · rw [List.length_take, formatAll_length hfmt, Nat.min_comm]

/-- C1 witness: a concrete 200 response with two well-formed records. -/
theorem C1_witness :
    List.lookup "result"
        [("result", Json.arr
          [Json.obj [("type", Json.str "A"), ("name", Json.str "a.example"),
                     ("content", Json.str "1.2.3.4")],
           Json.obj [("type", Json.str "CNAME"), ("name", Json.str "b.example"),
                     ("content", Json.str "c.example")]])]
      = some (Json.arr
          [Json.obj [("type", Json.str "A"), ("name", Json.str "a.example"),
                     ("content", Json.str "1.2.3.4")],
           Json.obj [("type", Json.str "CNAME"), ("name", Json.str "b.example"),
                     ("content", Json.str "c.example")]])
    ∧ formatAll
          [Json.obj [("type", Json.str "A"), ("name", Json.str "a.example"),
                     ("content", Json.str "1.2.3.4")],
           Json.obj [("type", Json.str "CNAME"), ("name", Json.str "b.example"),
                     ("content", Json.str "c.example")]]
        = Except.ok ["  - A: a.example -> 1.2.3.4", "  - CNAME: b.example -> c.example"]
    ∧ (test_credentials (fun _ => .resp ⟨200, "",
          .ok (.obj [("result", Json.arr
            [Json.obj [("type", Json.str "A"), ("name", Json.str "a.example"),
                       ("content", Json.str "1.2.3.4")],
             Json.obj [("type", Json.str "CNAME"), ("name", Json.str "b.example"),
                       ("content", Json.str "c.example")]])])⟩) =
        (["Testing Cloudflare API credentials...",
          "Response status: 200",
          "✅ Credentials are valid!",
          "\nFound " ++ toString
            ([Json.obj [("type", Json.str "A"), ("name", Json.str "a.example"),
                        ("content", Json.str "1.2.3.4")],
              Json.obj [("type", Json.str "CNAME"), ("name", Json.str "b.example"),
                        ("content", Json.str "c.example")]] : List Json).length
            ++ " DNS records:"]
          ++ (["  - A: a.example -> 1.2.3.4", "  - CNAME: b.example -> c.example"] : List String).take 5,
         [cred_request])
      ∧ ((["  - A: a.example -> 1.2.3.4", "  - CNAME: b.example -> c.example"] : List String).take 5).length
          = min ([Json.obj [("type", Json.str "A"), ("name", Json.str "a.example"),
                            ("content", Json.str "1.2.3.4")],
                  Json.obj [("type", Json.str "CNAME"), ("name", Json.str "b.example"),
                            ("content", Json.str "c.example")]] : List Json).length 5) :=
  ⟨rfl, rfl, C1_cred_lists_first_five _ _ _ "" rfl rfl⟩

/-- C10: for every HTTP 200 response to the credential probe whose JSON
body is an object with no `result` key, the probe still prints the
credentials-valid success line, prints no record count and no record
lines, and completes with no error line. -/
theorem C10_no_result_key (kvs : List (String × Json)) (text : String)
    (hno : List.lookup "result" kvs = none) :
    test_credentials (fun _ => .resp ⟨200, text, .ok (.obj kvs)⟩) =
      (["Testing Cloudflare API credentials...",
        "Response status: 200",
        "✅ Credentials are valid!"],
       [cred_request]) := by
  simp only [test_credentials, test_credentials_body, pyContains, hno,
    Option.isSome_none]
  rfl

/-- C10 witness: a 200 response whose body is an empty object. -/
theorem C10_witness :
    List.lookup "result" ([] : List (String × Json)) = none
    ∧ test_credentials (fun _ => .resp ⟨200, "", .ok (.obj [])⟩) =
        (["Testing Cloudflare API credentials...",
          "Response status: 200",
          "✅ Credentials are valid!"],
         [cred_request]) :=
  ⟨rfl, C10_no_result_key [] "" rfl⟩

/-- C3: whatever the network does — so in particular whatever outcome the
credential probe has (success, non-200 status, or transport failure) — the
entry point runs the zone-info probe afterwards: the run's output is the
credential probe's output followed by the zone probe's full output, the
zone request is always issued (second in the fixed order), and the zone
probe always produces output. -/
theorem C3_both_probes_always_run (net : Net) :
    (main_run net).1 = (test_credentials net).1 ++ (test_zone_info net).1
    ∧ (main_run net).2.1 = [cred_request, zone_request]
    ∧ (test_zone_info net).2 = [zone_request]
    ∧ (test_zone_info net).1 ≠ [] := by
  refine ⟨rfl, rfl, rfl, ?_⟩
  simp only [test_zone_info]
  exact fun h => List.noConfusion h

/-- C4: for every response with a status other than 200, each probe prints
its failure indicator together with the raw response body text verbatim,
and execution continues (the probe body raises nothing, and the run still
includes the zone probe's output). -/
theorem C4_non200_prints_body (status : Nat) (text : String)
    (js js2 : Except String Json) (h : status ≠ 200) :
    test_credentials (fun _ => .resp ⟨status, text, js⟩) =
      (["Testing Cloudflare API credentials...",
        "Response status: " ++ toString status,
        "❌ Invalid credentials or permissions",
        "Error: " ++ text],
       [cred_request])
    ∧ test_zone_info (fun _ => .resp ⟨status, text, js2⟩) =
      (["\nGetting zone information...",
        "❌ Failed to get zone info: " ++ text],
       [zone_request])
    ∧ (main_run (fun _ => .resp ⟨status, text, js⟩)).1 =
        (test_credentials (fun _ => .resp ⟨status, text, js⟩)).1 ++
          (test_zone_info (fun _ => .resp ⟨status, text, js⟩)).1 := by
  have hb : (status == 200) = false := by simp [h]
  refine ⟨?_, ?_, rfl⟩
  · simp [test_credentials, test_credentials_body, hb]
  · simp [test_zone_info, test_zone_info_body, hb]

/-- C4 witness: a 403 response with body `denied`. -/
theorem C4_witness :
    (403 : Nat) ≠ 200
    ∧ (test_credentials (fun _ => .resp ⟨403, "denied", .ok .null⟩) =
        (["Testing Cloudflare API credentials...",
          "Response status: " ++ toString 403,
          "❌ Invalid credentials or permissions",
          "Error: " ++ "denied"],
         [cred_request])
      ∧ test_zone_info (fun _ => .resp ⟨403, "denied", .ok .null⟩) =
          (["\nGetting zone information...",
            "❌ Failed to get zone info: " ++ "denied"],
           [zone_request])
      ∧ (main_run (fun _ => .resp ⟨403, "denied", .ok .null⟩)).1 =
          (test_credentials (fun _ => .resp ⟨403, "denied", .ok .null⟩)).1 ++
            (test_zone_info (fun _ => .resp ⟨403, "denied", .ok .null⟩)).1) :=
  ⟨by decide, C4_non200_prints_body 403 "denied" (.ok .null) (.ok .null) (by decide)⟩

/-- C5: for every transport-level failure (the GET raises an exception
whose text is `e`), each probe prints a network-error line containing `e`,
no fault escapes (the probe returns its line list normally), and exactly
one request attempt is made per probe. -/
theorem C5_transport_failure (e : String) :
    test_credentials (fun _ => .exn e) =
      (["Testing Cloudflare API credentials...",
        "❌ Network error: " ++ e],
       [cred_request])
    ∧ test_zone_info (fun _ => .exn e) =
      (["\nGetting zone information...",
        "❌ Error getting zone info: " ++ e],
       [zone_request])
    ∧ (test_credentials (fun _ => .exn e)).2.length = 1
    ∧ (test_zone_info (fun _ => .exn e)).2.length = 1 := by
  exact ⟨rfl, rfl, rfl, rfl⟩

/-- C6: for every 200 response to the zone probe whose body has
`result.name` equal to a string `s`, the probe prints exactly the zone
name `s` and the original zone identifier. -/
theorem C6_zone_name_printed (kvs rkvs : List (String × Json))
    (text s : String)
    (h1 : List.lookup "result" kvs = some (Json.obj rkvs))
    (h2 : List.lookup "name" rkvs = some (Json.str s)) :
    test_zone_info (fun _ => .resp ⟨200, text, .ok (.obj kvs)⟩) =
      (["\nGetting zone information...",
        "✅ Zone name: " ++ s,
        "✅ Zone ID verified: " ++ ZONE_ID],
       [zone_request]) := by
  simp [test_zone_info, test_zone_info_body, getItem, h1, h2, pyStr]

/-- C6 witness: `result.name = "example.com"`. -/
theorem C6_witness :
    List.lookup "result" [("result", Json.obj [("name", Json.str "example.com")])]
      = some (Json.obj [("name", Json.str "example.com")])
    ∧ List.lookup "name" [("name", Json.str "example.com")]
      = some (Json.str "example.com")
    ∧ test_zone_info (fun _ => .resp ⟨200, "",
        .ok (.obj [("result", Json.obj [("name", Json.str "example.com")])])⟩) =
      (["\nGetting zone information...",
        "✅ Zone name: " ++ "example.com",
        "✅ Zone ID verified: " ++ ZONE_ID],
       [zone_request]) :=
  ⟨rfl, rfl,
   C6_zone_name_printed [("result", Json.obj [("name", Json.str "example.com")])]
     [("name", Json.str "example.com")] "" "example.com" rfl rfl⟩

/-- C7: for every network behaviour — success, non-200 status or transport
failure in either probe — the process exit status is 0; nothing in the
entry point inspects the probes' outcomes. -/
theorem C7_exit_always_zero (net : Net) : (main_run net).2.2 = 0 := rfl

/-- C8: the run issues exactly the two fixed requests, in order; each is an
HTTPS GET carrying `Authorization: Bearer <token>` with the compiled-in
token, `Content-Type: application/json`, and a 10-second timeout, against
the two fixed paths `/zones/{zone}/dns_records` and `/zones/{zone}` with
the compiled-in zone identifier. -/
theorem C8_request_shape (net : Net) :
    (main_run net).2.1 = [cred_request, zone_request]
    ∧ (∀ r ∈ (main_run net).2.1,
        r.method = "GET"
        ∧ (∃ rest, r.url = "https://" ++ rest)
        ∧ r.headers = [("Authorization", "Bearer " ++ API_TOKEN),
                       ("Content-Type", "application/json")]
        ∧ r.timeout = 10
        ∧ (r.url = "https://api.cloudflare.com/client/v4/zones/" ++ ZONE_ID ++ "/dns_records"
           ∨ r.url = "https://api.cloudflare.com/client/v4/zones/" ++ ZONE_ID)) := by
  refine ⟨rfl, ?_⟩
  intro r hr
  have : r = cred_request ∨ r = zone_request := by
    simpa [main_run, test_credentials, test_zone_info] using hr
  rcases this with h | h <;> subst h
  · exact ⟨rfl, ⟨"api.cloudflare.com/client/v4/zones/" ++ ZONE_ID ++ "/dns_records", rfl⟩,
      rfl, rfl, Or.inl rfl⟩
  · exact ⟨rfl, ⟨"api.cloudflare.com/client/v4/zones/" ++ ZONE_ID, rfl⟩,
      rfl, rfl, Or.inr rfl⟩

/-- C8 witness: the request-shape property instantiated at the credential
request, which is a member of the issued-request list of a concrete run. -/
theorem C8_witness :
    cred_request.method = "GET"
    ∧ (∃ rest, cred_request.url = "https://" ++ rest)
    ∧ cred_request.headers = [("Authorization", "Bearer " ++ API_TOKEN),
                              ("Content-Type", "application/json")]
    ∧ cred_request.timeout = 10
    ∧ (cred_request.url = "https://api.cloudflare.com/client/v4/zones/" ++ ZONE_ID ++ "/dns_records"
       ∨ cred_request.url = "https://api.cloudflare.com/client/v4/zones/" ++ ZONE_ID) :=
  (C8_request_shape (fun _ => .exn "timeout")).2 cred_request
    (by simp [main_run, test_credentials, test_zone_info])

/-- C9: every exception raised inside either probe's `try` block — JSON
decode failures and missing keys included — is caught by that probe's
broad handler and reported as a printed error line: whenever a body raises
`e`, the probe still returns normally with the lines printed so far
followed by the handler's line for `e`, and the run always completes both
probes and exits 0. -/
theorem C9_every_exception_caught (net : Net) :
    (main_run net).2.2 = 0
    ∧ (main_run net).1 = (test_credentials net).1 ++ (test_zone_info net).1
    ∧ (∀ e, (test_credentials_body net).2 = some e →
        test_credentials net =
          ("Testing Cloudflare API credentials..." :: (test_credentials_body net).1
             ++ ["❌ Network error: " ++ e],
           [cred_request]))
    ∧ (∀ e, (test_zone_info_body net).2 = some e →
        test_zone_info net =
          ("\nGetting zone information..." :: (test_zone_info_body net).1
             ++ ["❌ Error getting zone info: " ++ e],
           [zone_request])) := by
  refine ⟨rfl, rfl, ?_, ?_⟩
  · intro e he
    show ("Testing Cloudflare API credentials..." :: (test_credentials_body net).1 ++
        (match (test_credentials_body net).2 with
         | some e2 => ["❌ Network error: " ++ e2]
         | none => []),
      [cred_request]) = _
    rw [he]
  · intro e he
    show ("\nGetting zone information..." :: (test_zone_info_body net).1 ++
        (match (test_zone_info_body net).2 with
         | some e2 => ["❌ Error getting zone info: " ++ e2]
         | none => []),
      [zone_request]) = _
    rw [he]

/-- C9 witness: a network where the credential body raises `KeyError:
type` and the zone body raises `KeyError: name`; both are caught and
reported. -/
theorem C9_witness :
    (test_credentials_body bothBadNet).2 = some "\x27type\x27"
    ∧ (test_zone_info_body bothBadNet).2 = some "\x27name\x27"
    ∧ test_credentials bothBadNet =
        ("Testing Cloudflare API credentials..." :: (test_credentials_body bothBadNet).1
           ++ ["❌ Network error: " ++ "\x27type\x27"],
         [cred_request])
    ∧ test_zone_info bothBadNet =
        ("\nGetting zone information..." :: (test_zone_info_body bothBadNet).1
           ++ ["❌ Error getting zone info: " ++ "\x27name\x27"],
         [zone_request]) :=
  ⟨rfl, rfl,
   (C9_every_exception_caught bothBadNet).2.2.1 "\x27type\x27" rfl,
   (C9_every_exception_caught bothBadNet).2.2.2 "\x27name\x27" rfl⟩

/-- C2 counterexample: a 200 response whose single record lacks the `type`
key.  Contrary to the claim, the resulting `KeyError` does not surface as
an unrecovered fault terminating the run: it is caught by the credential
probe's handler (the `❌ Network error: 'type'` line below), and the run
continues through the whole zone probe and exits 0. -/
theorem C2_counterexample :
    main_run badRecordNet =
      (["Testing Cloudflare API credentials...",
        "Response status: 200",
        "✅ Credentials are valid!",
        "\nFound 1 DNS records:",
        "❌ Network error: \x27type\x27",
        "\nGetting zone information...",
        "✅ Zone name: example.com",
        "✅ Zone ID verified: " ++ ZONE_ID],
       [cred_request, zone_request], 0)
    ∧ (test_credentials_body badRecordNet).2 = some "\x27type\x27" :=
  ⟨rfl, rfl⟩

/-- C2 as amended: a record missing an expected key (here among the first
five records), or a zone body whose `result` lacks `name`, raises a
`KeyError` that IS handled: the probe's broad handler catches it and
prints an error line (the credential probe labels it a network error),
the lines printed before the fault remain, the probe produces no further
record lines, and the run continues to the next probe and exits 0. -/
theorem C2_amended_missing_key_caught (goodRecs : List Json)
    (goodLines : List String) (bad : Json) (rest : List Json)
    (kvs : List (String × Json)) (text e : String)
    (hgood : formatAll goodRecs = .ok goodLines)
    (hlt : goodRecs.length < 5)
    (hbad : formatRecord bad = .error e)
    (hres : List.lookup "result" kvs = some (.arr (goodRecs ++ bad :: rest))) :
    test_credentials (fun _ => .resp ⟨200, text, .ok (.obj kvs)⟩) =
      (["Testing Cloudflare API credentials...",
        "Response status: 200",
        "✅ Credentials are valid!",
        "\nFound " ++ toString (goodRecs ++ bad :: rest).length ++ " DNS records:"]
        ++ goodLines ++ ["❌ Network error: " ++ e],
       [cred_request])
    ∧ (main_run (fun _ => .resp ⟨200, text, .ok (.obj kvs)⟩)).1 =
        (test_credentials (fun _ => .resp ⟨200, text, .ok (.obj kvs)⟩)).1
          ++ (test_zone_info (fun _ => .resp ⟨200, text, .ok (.obj kvs)⟩)).1
    ∧ (main_run (fun _ => .resp ⟨200, text, .ok (.obj kvs)⟩)).2.2 = 0
    ∧ (∀ (rkvs kvs2 : List (String × Json)) (text2 : String),
        List.lookup "result" kvs2 = some (.obj rkvs) →
        List.lookup "name" rkvs = none →
        test_zone_info (fun _ => .resp ⟨200, text2, .ok (.obj kvs2)⟩) =
          (["\nGetting zone information...",
            "❌ Error getting zone info: \x27name\x27"],
           [zone_request])) := by
  obtain ⟨m, hm⟩ : ∃ m, 5 - goodRecs.length = m + 1 :=
    ⟨5 - goodRecs.length - 1, by omega⟩
  have htake : (goodRecs ++ bad :: rest).take 5 = goodRecs ++ bad :: rest.take m := by
    rw [List.take_append_eq_append_take, List.take_of_length_le (by omega), hm,
      List.take_succ_cons]
  have hprint : printRecords ((goodRecs ++ bad :: rest).take 5) = (goodLines, some e) := by
    rw [htake]
    exact printRecords_stops_at_error hgood hbad
  refine ⟨?_, rfl, rfl, ?_⟩
  · simp [test_credentials, test_credentials_body, pyContains, getItem, pyLen,
      pySliceIter, hres, hprint]
    rfl
  · intro rkvs kvs2 text2 h1 h2
    simp [test_zone_info, test_zone_info_body, getItem, h1, h2]

/-- C2 amended witness: one well-formed record followed by a record
missing `type`; the good line prints, the `KeyError` is caught, and the
zone-side conjunct is exercised on a `result` object lacking `name`. -/
theorem C2_amended_witness :
    formatAll [Json.obj [("type", Json.str "A"), ("name", Json.str "a.example"),
                         ("content", Json.str "1.2.3.4")]]
      = Except.ok ["  - A: a.example -> 1.2.3.4"]
    ∧ ([Json.obj [("type", Json.str "A"), ("name", Json.str "a.example"),
                  ("content", Json.str "1.2.3.4")]] : List Json).length < 5
    ∧ formatRecord (Json.obj [("name", Json.str "x")]) = Except.error "\x27type\x27"
    ∧ List.lookup "result"
        [("result", Json.arr
           ([Json.obj [("type", Json.str "A"), ("name", Json.str "a.example"),
                       ("content", Json.str "1.2.3.4")]]
             ++ Json.obj [("name", Json.str "x")] :: []))]
      = some (Json.arr
           ([Json.obj [("type", Json.str "A"), ("name", Json.str "a.example"),
                       ("content", Json.str "1.2.3.4")]]
             ++ Json.obj [("name", Json.str "x")] :: []))
    ∧ (test_credentials (fun _ => .resp ⟨200, "",
          .ok (.obj [("result", Json.arr
            ([Json.obj [("type", Json.str "A"), ("name", Json.str "a.example"),
                        ("content", Json.str "1.2.3.4")]]
              ++ Json.obj [("name", Json.str "x")] :: []))])⟩) =
        (["Testing Cloudflare API credentials...",
          "Response status: 200",
          "✅ Credentials are valid!",
          "\nFound " ++ toString
            (([Json.obj [("type", Json.str "A"), ("name", Json.str "a.example"),
                         ("content", Json.str "1.2.3.4")]] : List Json)
              ++ Json.obj [("name", Json.str "x")] :: []).length ++ " DNS records:"]
          ++ ["  - A: a.example -> 1.2.3.4"] ++ ["❌ Network error: " ++ "\x27type\x27"],
         [cred_request])) :=
  ⟨rfl, by decide, rfl, rfl,
   (C2_amended_missing_key_caught
      [Json.obj [("type", Json.str "A"), ("name", Json.str "a.example"),
                 ("content", Json.str "1.2.3.4")]]
      ["  - A: a.example -> 1.2.3.4"]
      (Json.obj [("name", Json.str "x")]) []
      [("result", Json.arr
         ([Json.obj [("type", Json.str "A"), ("name", Json.str "a.example"),
                     ("content", Json.str "1.2.3.4")]]
           ++ Json.obj [("name", Json.str "x")] :: []))]
      "" "\x27type\x27" rfl (by decide) rfl rfl).1⟩

end Cloudflare
